import Mathlib

/-!
Verification of the hanzi-stories validator (`hanzi-stories-audit.js`) and
the companion flattening traversal (`loadAllHanziChars`).

The outline document is modelled as a tree of nodes carrying a `text` label
and an ordered list of children.  An absent `outline` key of the xml2js
output is modelled as the empty child list (the xml2js parser never yields
an empty array), and wherever the scripts iterate such an absent list —
`.forEach` on `undefined` at the pronunciation, tone and anchor tiers —
the model raises the same TypeError the scripts raise.

JavaScript semantics is embedded explicitly:
* string operations (`split`, `trim`, `includes`, `startsWith`,
  `toLowerCase`, regex tests) are re-implemented by structural recursion
  over `List Char`, so every definition evaluates inside the kernel;
* a value that the script leaves `undefined` is an `Option` that is `none`;
* a thrown `TypeError` (calling a method on `undefined`) is `Except.error`;
* `console.error` calls are collected into an ordered message list.
-/

namespace HanziAudit

/-- A node of the parsed outline document: `text` attribute plus ordered
children.  Mirrors the xml2js output consumed by the scripts. -/
inductive Node where
  | mk (text : String) (children : List Node)

def Node.text : Node → String
  | .mk t _ => t

def Node.children : Node → List Node
  | .mk _ c => c

/-- JavaScript `String.prototype.split` with a one-character separator,
on the character list. `""` splits to `[""]`, like in JS. -/
def splitList (sep : Char) : List Char → List (List Char)
  | [] => [[]]
  | c :: rest =>
    let r := splitList sep rest
    if c = sep then [] :: r
    else
      match r with
      | [] => [[c]]
      | h :: t => (c :: h) :: t

def splitOnChar (sep : Char) (s : String) : List String :=
  (splitList sep s.data).map String.mk

/-- Whitespace for the purposes of JS `trim` and `\S`; the subset that can
occur in the data (space, tab, CR, LF, NBSP, BOM) is covered. -/
def isJsSpace (c : Char) : Bool :=
  c = ' ' || c = '\t' || c = '\n' || c = '\r' || c = '\u000B' ||
  c = '\u000C' || c = '\u00A0' || c = '\u2028' || c = '\u2029' ||
  c = '\uFEFF'

def trimList (cs : List Char) : List Char :=
  ((cs.dropWhile isJsSpace).reverse.dropWhile isJsSpace).reverse

/-- JavaScript `String.prototype.trim`. -/
def trimStr (s : String) : String :=
  String.mk (trimList s.data)

def listPrefixOk : List Char → List Char → Bool
  | [], _ => true
  | _ :: _, [] => false
  | p :: ps, c :: cs => p = c && listPrefixOk ps cs

def listContains (pat : List Char) : List Char → Bool
  | [] => pat.isEmpty
  | c :: rest => listPrefixOk pat (c :: rest) || listContains pat rest

/-- JavaScript `String.prototype.includes`. -/
def containsSubstr (s pat : String) : Bool :=
  listContains pat.data s.data

/-- JavaScript `String.prototype.startsWith` (also used for anchored
`/^.../` regex tests on literal patterns). -/
def startsWithStr (s pat : String) : Bool :=
  listPrefixOk pat.data s.data

def lowerChar (c : Char) : Char :=
  if 'A' ≤ c && c ≤ 'Z' then Char.ofNat (c.toNat + 32) else c

/-- JavaScript `String.prototype.toLowerCase` (ASCII range; every pattern
the audit lowercases against is ASCII). -/
def lowerStr (s : String) : String :=
  String.mk (s.data.map lowerChar)

/-- `path.replace(/\//g, '')`. -/
def removeSlashes (s : String) : String :=
  String.mk (s.data.filter (fun c => !(c = '/')))

/-- JS reads `l[i]` and passes the result to `String(...)`-coercing
contexts (regex tests): an out-of-range index yields `undefined`, which
coerces to the string `"undefined"`. -/
def jsIdx (l : List String) (i : Nat) : String :=
  (l[i]?).getD "undefined"

/-- The `story` object assembled by `auditHanziElement`
(`hanzi-stories-audit.js`, lines 81-119 and `parseChildren`).  Fields that
the script may leave `undefined` are `Option`s. -/
structure Story where
  headerText : String
  hanzi : String := ""
  pinyinAndTones : List String := []
  translationStr : Option String := none
  tags : Option String := none
  translations : List String := []
  isMovieSetStory : Bool := false
  isWheelStory : Bool := false
  isPouringRainStory : Bool := false
  isOldWestStory : Bool := false
  isSciFiStory : Bool := false
  isPoliceDramaStory : Bool := false
  hanziBreakdown : Option String := none
  storyLines : List String := []
  notes : List String := []

/-- JS truthiness of an optional string: `undefined` and `""` are falsy. -/
def truthy : Option String → Bool
  | none => false
  | some s => !(s == "")

/-- `tags && tags.includes(pat)` evaluated as a boolean. -/
def tagIncludes (tags : Option String) (pat : String) : Bool :=
  match tags with
  | none => false
  | some t => containsSubstr t pat

/-- Regex `/^.: \S/` of `validateHeaderFormat` (line 137): any character
(not a line terminator), a colon, a single space, then a non-space. -/
def headerFormatOk (s : String) : Bool :=
  match s.data with
  | c0 :: c1 :: c2 :: c3 :: _ =>
    !(c0 = '\n' || c0 = '\r' || c0 = '\u2028' || c0 = '\u2029') &&
    c1 = ':' && c2 = ' ' && !(isJsSpace c3)
  | _ => false

def isToneDigit (c : Char) : Bool :=
  '1' ≤ c && c ≤ '5'

/-- Regex `/^[1-5]$/` used on tone-level labels (line 64). -/
def isToneLabel (s : String) : Bool :=
  match s.data with
  | [c] => isToneDigit c
  | _ => false

def isPinyinLetter (c : Char) : Bool :=
  c = 'ü' || ('a' ≤ c && c ≤ 'z')

/-- Regex `/^(ü|[a-z])+[1-5]?$/` of `pinyinAndTonesValid` (line 155):
one or more letters (ü counted as a letter) then an optional tone digit. -/
def pinyinPatternOk (s : String) : Bool :=
  let cs := s.data
  let core :=
    match cs.getLast? with
    | some c => if isToneDigit c then cs.dropLast else cs
    | none => cs
  !core.isEmpty && core.all isPinyinLetter

/-- A pronunciation token is accepted when it is the sentinel or matches
the pinyin pattern (line 155). -/
def pinyinTokenOk (t : String) : Bool :=
  t == "(no pronunciation)" || pinyinPatternOk t

/-- The fixed whitelist of the `pouringRainSyllable` regex (line 34):
`/^(ju|juan|jun|lü|lüe|nü|nüe|qu|quan|que|qun|xu|xuan|xue|xun|yu)$/`. -/
def pouringRainSyllables : List String :=
  ["ju", "juan", "jun", "lü", "lüe", "nü", "nüe", "qu", "quan", "que",
   "qun", "xu", "xuan", "xue", "xun", "yu"]

/-- `pouringRainSyllable.test s` — the regex is anchored on both sides, so
it is exact membership in the whitelist. -/
def pouringRainSyllableTest (s : String) : Bool :=
  pouringRainSyllables.contains s

/-- Regex `/^[^+]+(\+[^+]+)+$/` of `hanziBreakdownValid` (line 250): at
least two nonempty `+`-separated segments. -/
def breakdownFormatOk (s : String) : Bool :=
  let parts := splitOnChar '+' s
  decide (2 ≤ parts.length) && parts.all (fun p => !(p == ""))

/-- Message of `validateHeaderFormat` (line 138); `headerText.slice(0, 5)`
is modelled as the first five characters. -/
def headerMsg (path headerText : String) : String :=
  path ++ ": Hanzi element must begin with character, colon, single space: " ++
    String.mk (headerText.data.take 5) ++ "..."

def singleCharMsg (path hanzi : String) : String :=
  path ++ ": Hanzi " ++ "\"" ++ hanzi ++ "\"" ++ " is not a single character"

def pinyinMsg (path hanzi t : String) : String :=
  path ++ "/" ++ hanzi ++ ": Pinyin and tone " ++ "\"" ++ t ++ "\"" ++
    " does not match expected pattern"

def countMsg (path hanzi : String) : String :=
  path ++ "/" ++ hanzi ++ ": Pinyin and translation counts do not match"

def matchMsg (path hanzi : String) : String :=
  path ++ "/" ++ hanzi ++ ": First pinyin syllable does not match expected value"

/-- `validateHeaderFormat` (lines 136-142): verdict plus emitted messages. -/
def validateHeaderFormat (path : String) (story : Story) : Bool × List String :=
  if !(headerFormatOk story.headerText) then
    (false, [headerMsg path story.headerText])
  else (true, [])

/-- `hanziIsSingleCharacter` (lines 144-150). -/
def hanziIsSingleCharacter (path : String) (story : Story) : Bool × List String :=
  if !(story.hanzi.length == 1) then
    (false, [singleCharMsg path story.hanzi])
  else (true, [])

/-- `pinyinAndTonesValid` (lines 152-161): each offending token is reported
with its own message; the verdict is false as soon as one token offends. -/
def pinyinAndTonesValid (path : String) (story : Story) : Bool × List String :=
  let msgs := story.pinyinAndTones.filterMap (fun t =>
    if pinyinTokenOk t then none else some (pinyinMsg path story.hanzi t))
  (msgs.isEmpty, msgs)

/-- `pinyinCountMatchesTranslationCount` (lines 163-170). -/
def pinyinCountMatchesTranslationCount (path : String) (story : Story) :
    Bool × List String :=
  if !(story.pinyinAndTones.length == story.translations.length) then
    (false, [countMsg path story.hanzi])
  else (true, [])

/-- `matchingPinyinSyllable` (lines 172-180): the first pronunciation token
must equal the path with every slash removed.  There is no special case for
the `"(no pronunciation)"` path. -/
def matchingPinyinSyllable (path : String) (story : Story) : Bool × List String :=
  let expectedPinyinSyllable := removeSlashes path
  if !(jsIdx story.pinyinAndTones 0 == expectedPinyinSyllable) then
    (false, [matchMsg path story.hanzi])
  else (true, [])

/-- `multiplePinyinSyllablesWithMovieSetTag` (lines 182-194). -/
def multiplePinyinSyllablesWithMovieSetTag (path : String) (story : Story) :
    Bool × List String :=
  if decide (1 < story.pinyinAndTones.length) && !story.isMovieSetStory then
    (false, [path ++ "/" ++ story.hanzi ++
      ": Multiple pinyin syllables require the #🎬 tag"])
  else if story.isMovieSetStory && story.pinyinAndTones.length == 1 then
    (false, [path ++ "/" ++ story.hanzi ++
      ": The #🎬 tag requires multiple pinyin syllables"])
  else (true, [])

/-- `text.slice(2).trim()` after a breakdown or note marker: both markers
are astral characters (two UTF-16 units), so the slice drops exactly the
marker. -/
def stripMarker (t : String) : String :=
  trimStr (String.mk (t.data.drop 1))

/-- Loop body of `parseChildren` (lines 206-229), threading the index, the
breakdown-seen flag and the fields under construction.  On failure the
single emitted message is returned on the left. -/
def parseChildrenLoop (path hanzi : String) (children : List Node) (i : Nat)
    (enc : Bool) (bd : Option String) (sl nt : List String) :
    Sum String (Option String × List String × List String) :=
  match children with
  | [] => Sum.inr (bd, sl, nt)
  | child :: rest =>
    if decide (0 < child.children.length) then
      Sum.inl (path ++ "/" ++ hanzi ++ ": Story has grand-child nodes.")
    else
      let t := child.text
      if startsWithStr t "🧩" then
        if enc then
          Sum.inl (path ++ "/" ++ hanzi ++ ": Multiple hanzi breakdowns encountered")
        else if !(i == 0) then
          Sum.inl (path ++ "/" ++ hanzi ++ ": Hanzi breakdown is not the first child node")
        else
          parseChildrenLoop path hanzi rest (i + 1) true (some (stripMarker t)) sl nt
      else if startsWithStr t "📌" then
        parseChildrenLoop path hanzi rest (i + 1) enc bd sl (nt ++ [stripMarker t])
      else
        parseChildrenLoop path hanzi rest (i + 1) enc bd (sl ++ [t]) nt

/-- `parseChildren` (lines 196-231): either one failure message or the
story updated with breakdown, story lines and note lines. -/
def parseChildren (path : String) (el : Node) (story : Story) :
    Sum (List String) Story :=
  let children := el.children
  if children.length == 0 && !(path == "(no pronunciation)") then
    Sum.inl [path ++ "/" ++ story.hanzi ++ ": Hanzi element must have children"]
  else
    match parseChildrenLoop path story.hanzi children 0 false none [] [] with
    | Sum.inl m => Sum.inl [m]
    | Sum.inr (bd, sl, nt) =>
      Sum.inr { story with hanziBreakdown := bd, storyLines := sl, notes := nt }

/-- `wheelStoryValid` (lines 233-240). -/
def wheelStoryValid (path : String) (story : Story) :
    Except String (Bool × List String) :=
  if story.isWheelStory && truthy story.hanziBreakdown then
    Except.ok (false, [path ++ "/" ++ story.hanzi ++
      ": Wheel story should not have hanzi breakdown"])
  else Except.ok (true, [])

/-- `hanziBreakdownValid` (lines 242-256). -/
def hanziBreakdownValid (path : String) (story : Story) :
    Except String (Bool × List String) :=
  if !story.isWheelStory && !(truthy story.hanziBreakdown) &&
      !(path == "(no pronunciation)") then
    Except.ok (false, [path ++ "/" ++ story.hanzi ++
      ": Non-wheel story must have hanzi breakdown"])
  else if truthy story.hanziBreakdown then
    if !(breakdownFormatOk (story.hanziBreakdown.getD "")) then
      Except.ok (false, [path ++ "/" ++ story.hanzi ++
        ": Hanzi breakdown does not match expected format"])
    else Except.ok (true, [])
  else Except.ok (true, [])

/-- `storyTypeValid` (lines 258-268). -/
def storyTypeValid (path : String) (story : Story) :
    Except String (Bool × List String) :=
  let count := (if story.isMovieSetStory then 1 else 0) +
    (if story.isOldWestStory then 1 else 0) +
    (if story.isSciFiStory then 1 else 0) +
    (if story.isPoliceDramaStory then 1 else 0)
  if !(count == 0) && !(count == 1) then
    Except.ok (false, [path ++ "/" ++ story.hanzi ++ ": Multiple story types are set"])
  else Except.ok (true, [])

/-- `atLeastOneStoryLine` (lines 270-277). -/
def atLeastOneStoryLine (path : String) (story : Story) :
    Except String (Bool × List String) :=
  if story.storyLines.length == 0 && !(path == "(no pronunciation)") then
    Except.ok (false, [path ++ "/" ++ story.hanzi ++
      ": Hanzi element must have at least one story line"])
  else Except.ok (true, [])

/-- `wheelStoryMentionsWheel` (lines 279-286): for a wheel story the script
calls `story.storyLines[0].toLowerCase()`, a TypeError when there is no
story line. -/
def wheelStoryMentionsWheel (path : String) (story : Story) :
    Except String (Bool × List String) :=
  if story.isWheelStory then
    match story.storyLines with
    | [] => Except.error "TypeError: cannot read toLowerCase of undefined"
    | l0 :: _ =>
      if !(containsSubstr (lowerStr l0) "wheel") then
        Except.ok (false, [path ++ "/" ++ story.hanzi ++
          ": Wheel story must mention " ++ "\"wheel\"" ++ " in the first line"])
      else Except.ok (true, [])
  else Except.ok (true, [])

/-- `movieSetStoryHasAtLeastFourStoryLines` (lines 288-295). -/
def movieSetStoryHasAtLeastFourStoryLines (path : String) (story : Story) :
    Except String (Bool × List String) :=
  if story.isMovieSetStory && decide (story.storyLines.length < 4) then
    Except.ok (false, [path ++ "/" ++ story.hanzi ++
      ": Movie set story must have at least four story lines"])
  else Except.ok (true, [])

/-- `oldWestStoryMustBeginWithCorrectPattern` (lines 297-304): the regex is
applied to `storyLines[0]`, which JS coerces to `"undefined"` when absent. -/
def oldWestStoryMustBeginWithCorrectPattern (path : String) (story : Story) :
    Except String (Bool × List String) :=
  if story.isOldWestStory && !(startsWithStr (jsIdx story.storyLines 0) "(Old West") then
    Except.ok (false, [path ++ "/" ++ story.hanzi ++
      ": Old West story must begin with " ++ "\"(Old West\""])
  else Except.ok (true, [])

/-- `sciFiStoryMustBeginWithCorrectPattern` (lines 306-313). -/
def sciFiStoryMustBeginWithCorrectPattern (path : String) (story : Story) :
    Except String (Bool × List String) :=
  if story.isSciFiStory && !(startsWithStr (jsIdx story.storyLines 0) "(Sci-fi") then
    Except.ok (false, [path ++ "/" ++ story.hanzi ++
      ": Sci-fi story must begin with " ++ "\"(Sci-fi\""])
  else Except.ok (true, [])

/-- `policeDramaStoryMustBeginWithCorrectPattern` (lines 315-322). -/
def policeDramaStoryMustBeginWithCorrectPattern (path : String) (story : Story) :
    Except String (Bool × List String) :=
  if story.isPoliceDramaStory &&
      !(startsWithStr (jsIdx story.storyLines 0) "(Police drama") then
    Except.ok (false, [path ++ "/" ++ story.hanzi ++
      ": Police drama story must begin with " ++ "\"(Police drama\""])
  else Except.ok (true, [])

/-- `pouringRainStoryMustHaveEligibleSyllable` (lines 324-332): the raw
first pronunciation token is matched against the anchored whitelist regex;
no tone digit is stripped. -/
def pouringRainStoryMustHaveEligibleSyllable (path : String) (story : Story) :
    Except String (Bool × List String) :=
  if story.isPouringRainStory &&
      !(pouringRainSyllableTest (jsIdx story.pinyinAndTones 0)) then
    Except.ok (false, [path ++ "/" ++ story.hanzi ++
      ": Pouring Rain story must have an eligible pinyin syllable"])
  else Except.ok (true, [])

/-- `storyWithPouringRainSyllableMustBePouringRainStory` (lines 334-342). -/
def storyWithPouringRainSyllableMustBePouringRainStory (path : String)
    (story : Story) : Except String (Bool × List String) :=
  if pouringRainSyllableTest (jsIdx story.pinyinAndTones 0) &&
      !story.isPouringRainStory && !(jsIdx story.pinyinAndTones 0 == "yu") then
    Except.ok (false, [path ++ "/" ++ story.hanzi ++
      ": Story with pouring rain syllable must be a Pouring Rain story"])
  else Except.ok (true, [])

/-- `pouringRainStoryMustMentionPouringRainInStoryText` (lines 344-351). -/
def pouringRainStoryMustMentionPouringRainInStoryText (path : String)
    (story : Story) : Except String (Bool × List String) :=
  if story.isPouringRainStory &&
      !(story.storyLines.any (fun line => containsSubstr (lowerStr line) "pouring rain")) then
    Except.ok (false, [path ++ "/" ++ story.hanzi ++
      ": Pouring Rain story must mention " ++ "\"pouring rain\"" ++
      " in the story text"])
  else Except.ok (true, [])

/-- Crash raised at line 94 (`rest.split` with `rest` undefined) —
unreachable once the header check passed. -/
def restUndefinedCrash : String :=
  "TypeError: cannot read split of undefined rest"

/-- Crash raised at line 105 (`translationStr.split` with `translationStr`
undefined, i.e. the label had no pipe separator). -/
def translationUndefinedCrash : String :=
  "TypeError: cannot read split of undefined translationStr"

/-- Lines 80-119 of `auditHanziElement`: header checks, label splitting,
tag parsing, the movie-set cardinality rule and `parseChildren`.  The
result is a crash, a failure with the emitted messages (`Sum.inl`), or the
fully assembled story record (`Sum.inr`). -/
def buildStory (path : String) (el : Node) :
    Except String (Sum (List String) Story) :=
  let story0 : Story := { headerText := el.text }
  match validateHeaderFormat path story0 with
  | (false, m) => Except.ok (Sum.inl m)
  | (true, _) =>
  let colonParts := splitOnChar ':' el.text
  let story1 := { story0 with hanzi := colonParts.headD "" }
  match hanziIsSingleCharacter path story1 with
  | (false, m) => Except.ok (Sum.inl m)
  | (true, _) =>
  match colonParts[1]? with
  | none => Except.error restUndefinedCrash
  | some rest =>
  let segs := (splitOnChar '|' rest).map trimStr
  let pinyinAndTones := (splitOnChar ',' (segs.headD "")).map trimStr
  let story2 := { story1 with
    pinyinAndTones := pinyinAndTones,
    translationStr := segs[1]?,
    tags := segs[2]? }
  match pinyinAndTonesValid path story2 with
  | (false, m) => Except.ok (Sum.inl m)
  | (true, _) =>
  match story2.translationStr with
  | none => Except.error translationUndefinedCrash
  | some tstr =>
  let story3 := { story2 with
    translations := (splitOnChar ',' tstr).map trimStr }
  match pinyinCountMatchesTranslationCount path story3 with
  | (false, m) => Except.ok (Sum.inl m)
  | (true, _) =>
  match matchingPinyinSyllable path story3 with
  | (false, m) => Except.ok (Sum.inl m)
  | (true, _) =>
  let story4 := { story3 with
    isMovieSetStory := tagIncludes story3.tags "#🎬",
    isWheelStory := tagIncludes story3.tags "#🎡",
    isPouringRainStory := tagIncludes story3.tags "#🌧️",
    isOldWestStory := tagIncludes story3.tags "#🤠",
    isSciFiStory := tagIncludes story3.tags "#👽",
    isPoliceDramaStory := tagIncludes story3.tags "#👮" }
  match multiplePinyinSyllablesWithMovieSetTag path story4 with
  | (false, m) => Except.ok (Sum.inl m)
  | (true, _) =>
  match parseChildren path el story4 with
  | Sum.inl m => Except.ok (Sum.inl m)
  | Sum.inr story5 => Except.ok (Sum.inr story5)

/-- The type of one content rule of the Rule Engine. -/
def ContentRule : Type :=
  String → Story → Except String (Bool × List String)

/-- The content rules in the order of lines 120-131 of the source. -/
def contentRules : List ContentRule :=
  [wheelStoryValid, hanziBreakdownValid, storyTypeValid, atLeastOneStoryLine,
   wheelStoryMentionsWheel, movieSetStoryHasAtLeastFourStoryLines,
   oldWestStoryMustBeginWithCorrectPattern, sciFiStoryMustBeginWithCorrectPattern,
   policeDramaStoryMustBeginWithCorrectPattern,
   pouringRainStoryMustHaveEligibleSyllable,
   storyWithPouringRainSyllableMustBePouringRainStory,
   pouringRainStoryMustMentionPouringRainInStoryText]

/-- First-failure runner over a rule list: run each rule in order, stop at
the first rule whose verdict is false and yield its messages. -/
def firstFailRun (rules : List ContentRule) (path : String) (story : Story) :
    Except String (List String) :=
  match rules with
  | [] => Except.ok []
  | r :: rs =>
    match r path story with
    | Except.error e => Except.error e
    | Except.ok (b, m) => if !b then Except.ok m else firstFailRun rs path story

/-- Lines 120-131 of `auditHanziElement`: the chain of content rules with
early return at the first failure, transcribed check by check. -/
def contentPhase (path : String) (story : Story) : Except String (List String) :=
  match wheelStoryValid path story with
  | Except.error e => Except.error e
  | Except.ok (b, m) => if !b then Except.ok m else
  match hanziBreakdownValid path story with
  | Except.error e => Except.error e
  | Except.ok (b, m) => if !b then Except.ok m else
  match storyTypeValid path story with
  | Except.error e => Except.error e
  | Except.ok (b, m) => if !b then Except.ok m else
  match atLeastOneStoryLine path story with
  | Except.error e => Except.error e
  | Except.ok (b, m) => if !b then Except.ok m else
  match wheelStoryMentionsWheel path story with
  | Except.error e => Except.error e
  | Except.ok (b, m) => if !b then Except.ok m else
  match movieSetStoryHasAtLeastFourStoryLines path story with
  | Except.error e => Except.error e
  | Except.ok (b, m) => if !b then Except.ok m else
  match oldWestStoryMustBeginWithCorrectPattern path story with
  | Except.error e => Except.error e
  | Except.ok (b, m) => if !b then Except.ok m else
  match sciFiStoryMustBeginWithCorrectPattern path story with
  | Except.error e => Except.error e
  | Except.ok (b, m) => if !b then Except.ok m else
  match policeDramaStoryMustBeginWithCorrectPattern path story with
  | Except.error e => Except.error e
  | Except.ok (b, m) => if !b then Except.ok m else
  match pouringRainStoryMustHaveEligibleSyllable path story with
  | Except.error e => Except.error e
  | Except.ok (b, m) => if !b then Except.ok m else
  match storyWithPouringRainSyllableMustBePouringRainStory path story with
  | Except.error e => Except.error e
  | Except.ok (b, m) => if !b then Except.ok m else
  match pouringRainStoryMustMentionPouringRainInStoryText path story with
  | Except.error e => Except.error e
  | Except.ok (b, m) => if !b then Except.ok m else
  Except.ok []

/-- `auditHanziElement path` applied to one hanzi element (lines 78-133):
the ordered list of messages the Reporter receives for this entry, or a
crash. -/
def auditHanziElement (path : String) (el : Node) : Except String (List String) :=
  match buildStory path el with
  | Except.error e => Except.error e
  | Except.ok (Sum.inl msgs) => Except.ok msgs
  | Except.ok (Sum.inr story) => contentPhase path story

/-- Audit of a list of sibling hanzi elements (the `forEach` at lines 56
and 72): collects messages in order, records each `(path, element)` pair
handed to `auditHanziElement`, and propagates a crash. -/
def auditEntries (path : String) : List Node →
    Except String (List String × List (String × Node))
  | [] => Except.ok ([], [])
  | e :: rest =>
    match auditHanziElement path e with
    | Except.error err => Except.error err
    | Except.ok msgs =>
      match auditEntries path rest with
      | Except.error err => Except.error err
      | Except.ok (m2, e2) => Except.ok (msgs ++ m2, (path, e) :: e2)

/-- Fixed tail of the tone-tier structural message (line 65). -/
def toneSuffix : String :=
  ": Pronunciation element does not contain only tone-level elements or 👅"

/-- Crash raised wherever the script calls `.forEach` on an absent
`outline` key (lines 56, 63 and 72): in this model an absent key is the
empty child list, which the real script holds as `undefined`. -/
def forEachUndefinedCrash : String :=
  "TypeError: cannot read forEach of undefined"

/-- One child of a pronunciation-level element (lines 63-74): either the
tongue marker (ignored), a non-tone label (one structural message, subtree
skipped), or a tone-level element whose children are audited.  A childless
tone-level element is the script calling `.forEach` on `undefined`
(line 72), a TypeError. -/
def auditToneChild (syllable : String) (child : Node) :
    Except String (List String × List (String × Node)) :=
  if !(child.text == "👅") && !(isToneLabel child.text) then
    Except.ok ([syllable ++ toneSuffix], [])
  else if !(child.text == "👅") then
    match child.children with
    | [] => Except.error forEachUndefinedCrash
    | e :: es => auditEntries (syllable ++ "/" ++ child.text) (e :: es)
  else
    Except.ok ([], [])

/-- Sequential composition of per-node audits, concatenating the message
and entry lists (the `forEach` loops at lines 60 and 63). -/
def runConcat (f : Node → Except String (List String × List (String × Node))) :
    List Node → Except String (List String × List (String × Node))
  | [] => Except.ok ([], [])
  | x :: rest =>
    match f x with
    | Except.error err => Except.error err
    | Except.ok (m1, e1) =>
      match runConcat f rest with
      | Except.error err => Except.error err
      | Except.ok (m2, e2) => Except.ok (m1 ++ m2, e1 ++ e2)

/-- One pronunciation-level element (lines 60-75).  A childless
pronunciation-level element is the script's `children.forEach` on
`undefined` (line 63), a TypeError. -/
def auditPronunciation (p : Node) :
    Except String (List String × List (String × Node)) :=
  match p.children with
  | [] => Except.error forEachUndefinedCrash
  | c :: cs => runConcat (auditToneChild p.text) (c :: cs)

/-- Message of line 50. -/
def anchorMsg : String :=
  "First pronunciation does not contain " ++ "\"(no pronunciation)\""

/-- `auditHanziStories` (lines 47-76): the root child at index 2 must
contain `"(no pronunciation)"` in its label (a substring regex test) or the
whole audit stops with one message; children 0 and 1 are never touched;
children from index 3 on are pronunciation-level elements.  When the
anchor check passed but the anchor child has no children, line 56 calls
`.forEach` on `undefined`, a TypeError. -/
def auditHanziStories (root : Node) :
    Except String (List String × List (String × Node)) :=
  match root.children[2]? with
  | none => Except.error "TypeError: cannot read text of undefined"
  | some firstPronunciation =>
    if !(containsSubstr firstPronunciation.text "(no pronunciation)") then
      Except.ok ([anchorMsg], [])
    else
      match firstPronunciation.children with
      | [] => Except.error forEachUndefinedCrash
      | e :: es =>
        match auditEntries "(no pronunciation)" (e :: es) with
        | Except.error err => Except.error err
        | Except.ok (m1, e1) =>
          match runConcat auditPronunciation (root.children.drop 3) with
          | Except.error err => Except.error err
          | Except.ok (m2, e2) => Except.ok (m1 ++ m2, e1 ++ e2)

/-- One record of the flattening traversal (`loadChildHanziChars` in the
flashcard-lookup script): the text before the first colon, the path, and
the raw text between the first and the second colon (absent when the label
has no colon). -/
structure HanziChar where
  hanzi : String
  path : String
  definition : Option String

/-- `loadChildHanziChars` (flashcard-lookup script, lines 104-116): one
record per element, split only on `:`. -/
def loadChildHanziChars (hanziElements : List Node) (path : String) :
    List HanziChar :=
  hanziElements.map (fun el =>
    let hanziElementParts := splitOnChar ':' el.text
    { hanzi := hanziElementParts.headD "",
      path := path,
      definition := hanziElementParts[1]? })

/-- Concatenation of per-node record lists, `none` (a thrown TypeError)
propagating. -/
def optionConcat (f : Node → Option (List HanziChar)) :
    List Node → Option (List HanziChar)
  | [] => some []
  | x :: rest =>
    match f x with
    | none => none
    | some l =>
      match optionConcat f rest with
      | none => none
      | some ls => some (l ++ ls)

/-- One child of a pronunciation-level element in the flattening
traversal (flashcard-lookup script, lines 93-98): any non-👅 child is
treated as a tone-level element; a childless one makes
`loadChildHanziChars` call `.forEach` on `undefined`, a TypeError. -/
def loadToneHanziChars (syllable : String) (t : Node) : Option (List HanziChar) :=
  if !(t.text == "👅") then
    match t.children with
    | [] => none
    | e :: es => some (loadChildHanziChars (e :: es) (syllable ++ "/" ++ t.text))
  else some []

/-- One pronunciation-level element of the flattening traversal (lines
90-99): a childless one is `toneElements.forEach` on `undefined`
(line 93), a TypeError. -/
def loadPronunciationHanziChars (p : Node) : Option (List HanziChar) :=
  match p.children with
  | [] => none
  | c :: cs => optionConcat (loadToneHanziChars p.text) (c :: cs)

/-- `loadAllHanziChars` (flashcard-lookup script, lines 81-102): flatten
the tree into records; no structural checks beyond locating the tiers.
A missing child at index 2, a childless anchor child, or a childless
pronunciation- or tone-level element is the script dereferencing or
iterating `undefined`, i.e. `none`. -/
def loadAllHanziChars (root : Node) : Option (List HanziChar) :=
  match root.children[2]? with
  | none => none
  | some firstPronunciation =>
    match firstPronunciation.children with
    | [] => none
    | e :: es =>
      let base := loadChildHanziChars (e :: es) "(no pronunciation)"
      match optionConcat loadPronunciationHanziChars (root.children.drop 3) with
      | none => none
      | some rest => some (base ++ rest)

example : splitOnChar ',' "a,b" = ["a", "b"] := by decide
example : splitOnChar ',' "" = [""] := by decide
example : splitOnChar ',' "a," = ["a", ""] := by decide
example : trimStr "  de f " = "de f" := by decide
example : containsSubstr "abcd" "bc" = true := by decide
example : containsSubstr "abcd" "ca" = false := by decide
example : startsWithStr "🧩 x" "🧩" = true := by decide
example : lowerStr "Wheel PARTY" = "wheel party" := by decide
example : removeSlashes "ju/2" = "ju2" := by decide

/-- Scenario A of the spec: a plain valid entry under `"ma/1"`. -/
def nodeMa : Node :=
  Node.mk "妈: ma1 | mother"
    [Node.mk "🧩 female + horse" [], Node.mk "A mother rides a horse." []]

example : auditHanziElement "ma/1" nodeMa = Except.ok [] := by rfl

/-- A fully well-formed pouring-rain entry under `"ju/2"`: breakdown,
story line mentioning pouring rain, tag `#🌧️`, first token `"ju2"`. -/
def nodeJu : Node :=
  Node.mk "居: ju2 | reside | #🌧️"
    [Node.mk "🧩 corpse + old" [], Node.mk "Pouring rain on the house." []]

/-- The entry of spec Scenario B: `"的: de | of"` with no children. -/
def nodeDe : Node :=
  Node.mk "的: de | of" []

/-- Root-group entry whose first pronunciation token is the sentinel. -/
def nodeDeSentinel : Node :=
  Node.mk "的: (no pronunciation) | of" []

/-- C1.  The claim asserts that `"的: de | of"` under the path
`"(no pronunciation)"` with no children is accepted as valid, the
first-syllable-must-match-path check included.  The audit in fact rejects
it: `matchingPinyinSyllable` has no root exemption and compares the first
token `"de"` against the path with slashes removed, which is
`"(no pronunciation)"` itself. -/
theorem c1_counterexample :
    auditHanziElement "(no pronunciation)" nodeDe =
      Except.ok [matchMsg "(no pronunciation)" "的"] ∧
    [matchMsg "(no pronunciation)" "的"] ≠ ([] : List String) := by
  exact ⟨rfl, by decide⟩

/-- C1 amended.  The root exemption covers the must-have-children,
must-have-breakdown and at-least-one-story-line checks, but not the
first-syllable check: an entry under `"(no pronunciation)"` is accepted
only when its first pronunciation token is the sentinel
`"(no pronunciation)"`.  `"的: (no pronunciation) | of"` with no children
is valid; `"的: de | of"` is rejected with the first-syllable message. -/
theorem c1_amended :
    auditHanziElement "(no pronunciation)" nodeDeSentinel = Except.ok [] ∧
    auditHanziElement "(no pronunciation)" nodeDe =
      Except.ok [matchMsg "(no pronunciation)" "的"] := by
  exact ⟨rfl, rfl⟩

/-- C2.  The claim asserts the eligible-syllable rule strips the tone
digit before consulting the whitelist, so that a pouring-rain entry with
first token `"ju2"` passes.  The regex `pouringRainSyllable` is anchored
and is applied to the raw token: the fully well-formed pouring-rain entry
`nodeJu` (whose tone-stripped first syllable `"ju"` is whitelisted) is
rejected by exactly that rule. -/
theorem c2_counterexample :
    pouringRainSyllables.contains "ju" = true ∧
    auditHanziElement "ju/2" nodeJu =
      Except.ok ["ju/2/居: Pouring Rain story must have an eligible pinyin syllable"] := by
  exact ⟨by decide, rfl⟩

/-- C2 amended.  The eligible-syllable rule passes iff the entry is not
tagged pouring-rain or its first pronunciation token — taken verbatim,
tone digit included — is one of the sixteen whitelisted syllables. -/
theorem c2_amended (path : String) (story : Story) :
    pouringRainStoryMustHaveEligibleSyllable path story =
      Except.ok (true, ([] : List String)) ↔
    (story.isPouringRainStory = false ∨
      pouringRainSyllableTest (jsIdx story.pinyinAndTones 0) = true) := by
  cases hp : story.isPouringRainStory <;>
    cases ht : pouringRainSyllableTest (jsIdx story.pinyinAndTones 0) <;>
      simp [pouringRainStoryMustHaveEligibleSyllable, hp, ht]

/-- Witness for `c2_amended`: a pouring-rain story whose raw first token is
`"ju"` (toneless) does pass the rule. -/
theorem c2_witness :
    pouringRainStoryMustHaveEligibleSyllable "ju/2"
      { headerText := "", pinyinAndTones := ["ju"], isPouringRainStory := true } =
      Except.ok (true, ([] : List String)) := by
  exact (c2_amended "ju/2"
    { headerText := "", pinyinAndTones := ["ju"], isPouringRainStory := true }).mpr
    (Or.inr (by decide))

/-- An entry with two malformed pronunciation tokens. -/
def nodeTwoBad : Node :=
  Node.mk "的: d3e,x!y | a,b" []

/-- C3.  The claim asserts the Reporter receives exactly one message per
failing entry on every input.  `pinyinAndTonesValid` emits one message per
malformed token before failing the entry: this entry receives two. -/
theorem c3_counterexample :
    auditHanziElement "ma/1" nodeTwoBad =
      Except.ok [pinyinMsg "ma/1" "的" "d3e", pinyinMsg "ma/1" "的" "x!y"] ∧
    [pinyinMsg "ma/1" "的" "d3e", pinyinMsg "ma/1" "的" "x!y"].length ≠ 1 := by
  exact ⟨rfl, by decide⟩

/-- C9.  The claim asserts that a label passing the header-shape rule but
containing no `|` separator is handled by reporting a rule violation.  In
fact `translationStr` is left undefined and line 105 calls `.split` on it:
the audit throws instead of reaching a verdict.  The code contradicts the
documented policy that all failures are logged, so this is a code bug. -/
theorem c9_crash :
    headerFormatOk "的: de" = true ∧
    auditHanziElement "(no pronunciation)" (Node.mk "的: de" []) =
      Except.error translationUndefinedCrash := by
  exact ⟨by decide, rfl⟩

def nodeWheelBare : Node :=
  Node.mk "的: (no pronunciation) | of | #🎡" []

/-- The story record `buildStory` assembles for `nodeWheelBare`. -/
def storyWheelBare : Story :=
  { headerText := "的: (no pronunciation) | of | #🎡",
    hanzi := "的",
    pinyinAndTones := ["(no pronunciation)"],
    translationStr := some "of",
    tags := some "#🎡",
    translations := ["of"],
    isWheelStory := true,
    storyLines := [],
    notes := [] }

/-- C10.  A wheel entry under the root group with zero story lines passes
the (root-exempt) at-least-one-story-line rule, but
`wheelStoryMentionsWheel` then reads `storyLines[0].toLowerCase()` and
throws a TypeError instead of producing a verdict.  The code contradicts
the documented never-throw reporting policy, so this is a code bug. -/
theorem c10_crash :
    buildStory "(no pronunciation)" nodeWheelBare = Except.ok (Sum.inr storyWheelBare) ∧
    storyWheelBare.isWheelStory = true ∧
    storyWheelBare.storyLines = [] ∧
    atLeastOneStoryLine "(no pronunciation)" storyWheelBare =
      Except.ok (true, ([] : List String)) ∧
    wheelStoryMentionsWheel "(no pronunciation)" storyWheelBare =
      Except.error "TypeError: cannot read toLowerCase of undefined" ∧
    auditHanziElement "(no pronunciation)" nodeWheelBare =
      Except.error "TypeError: cannot read toLowerCase of undefined" := by
  exact ⟨rfl, rfl, rfl, rfl, rfl, rfl⟩

/-- C4.  The claim asserts the flattening computes the translation by
splitting on `:` and then on `|`.  `loadChildHanziChars` splits only on
`:` and stores the raw text between the first and second colon: for
`"的: de | of"` the stored field is `" de | of"`, not the translation
`"of"`. -/
theorem c4_counterexample :
    loadChildHanziChars [nodeDe] "(no pronunciation)" =
      [{ hanzi := "的", path := "(no pronunciation)", definition := some " de | of" }] ∧
    (some " de | of" : Option String) ≠ some "of" := by
  exact ⟨rfl, by decide⟩

/-- C4 amended.  The flattening emits exactly one record per entry — for
every entry list, malformed labels included, so it never aborts on a
malformed entry — whose `hanzi` is the text before the first colon and
whose third field is the raw text between the first and second colon
(absent when the label has no colon), with no `|`-splitting. -/
theorem c4_amended (els : List Node) (path : String) (i : Nat) :
    (loadChildHanziChars els path).length = els.length ∧
    (loadChildHanziChars els path)[i]? = (els[i]?).map (fun el =>
      { hanzi := (splitOnChar ':' el.text).headD "",
        path := path,
        definition := (splitOnChar ':' el.text)[1]? }) := by
  unfold loadChildHanziChars
  exact ⟨List.length_map _ _, List.getElem?_map _ _ _⟩

/-- Witness for `c4_amended` at the concrete entry `nodeDe`. -/
theorem c4_witness :
    (loadChildHanziChars [nodeDe] "(no pronunciation)").length = [nodeDe].length ∧
    (loadChildHanziChars [nodeDe] "(no pronunciation)")[0]? = ([nodeDe][0]?).map (fun el =>
      { hanzi := (splitOnChar ':' el.text).headD "",
        path := "(no pronunciation)",
        definition := (splitOnChar ':' el.text)[1]? }) :=
  c4_amended [nodeDe] "(no pronunciation)" 0

lemma splitList_ne_nil (sep : Char) (cs : List Char) : splitList sep cs ≠ [] := by
  induction cs with
  | nil => simp [splitList]
  | cons c rest ih =>
    unfold splitList
    split
    · simp
    · cases splitList sep rest <;> simp

lemma splitOnChar_ne_nil (sep : Char) (s : String) : splitOnChar sep s ≠ [] := by
  unfold splitOnChar
  simpa using splitList_ne_nil sep s.data

/-- The source transcription `contentPhase` computes the first-failure run
of the ordered rule list. -/
lemma contentPhase_eq_firstFail (path : String) (story : Story) :
    contentPhase path story = firstFailRun contentRules path story := by
  rfl

/-- C6.  The content rules run in exactly the order of `contentRules`
(wheel-no-breakdown, breakdown, setting exclusion, story-line count,
wheel-mentions-wheel, movie-set lines, old-west, sci-fi, police-drama,
pouring-rain eligibility, converse eligibility, pouring-rain mention),
stopping at the first failure; and an entry that yields a verdict — failed
rules included — does not stop the traversal: the next entries are still
audited and their messages appended. -/
theorem c6_rule_order :
    (∀ path story, contentPhase path story = firstFailRun contentRules path story) ∧
    (∀ path e rest ms m2 e2, auditHanziElement path e = Except.ok ms →
      auditEntries path rest = Except.ok (m2, e2) →
      auditEntries path (e :: rest) = Except.ok (ms ++ m2, (path, e) :: e2)) := by
  constructor
  · intro path story
    rfl
  · intro path e rest ms m2 e2 h1 h2
    simp [auditEntries, h1, h2]

/-- Witness for `c6_rule_order`: the entry with two malformed tokens fails,
yet the following valid entry is still audited. -/
theorem c6_witness :
    auditEntries "ma/1" [nodeTwoBad, nodeMa] =
      Except.ok ([pinyinMsg "ma/1" "的" "d3e", pinyinMsg "ma/1" "的" "x!y"],
        [("ma/1", nodeTwoBad), ("ma/1", nodeMa)]) := by
  have h := c6_rule_order.2 "ma/1" nodeTwoBad [nodeMa]
    [pinyinMsg "ma/1" "的" "d3e", pinyinMsg "ma/1" "的" "x!y"] [] [("ma/1", nodeMa)]
    (by rfl) (by rfl)
  simpa using h

/-- A record accepted by the movie-set cardinality check satisfies both
directions of the cardinality rule. -/
lemma multiplePinyin_true (path : String) (story : Story) (m : List String)
    (h : multiplePinyinSyllablesWithMovieSetTag path story = (true, m)) :
    (1 < story.pinyinAndTones.length → story.isMovieSetStory = true) ∧
    (story.isMovieSetStory = true → story.pinyinAndTones.length ≠ 1) := by
  unfold multiplePinyinSyllablesWithMovieSetTag at h
  split at h
  · simp at h
  · split at h
    · simp at h
    · rename_i hA hB
      constructor
      · intro hlen
        cases hmv : story.isMovieSetStory with
        | true => rfl
        | false => exact absurd (by simp [hlen, hmv]) hA
      · intro hmv hlen
        exact hB (by simp [hmv, hlen])

/-- Inverting a successful `buildStory` run: the assembled record has a
nonempty pronunciation list (a `split` never returns an empty array) and
satisfies the movie-set cardinality check, which `parseChildren` leaves
untouched. -/
lemma buildStory_success (path : String) (el : Node) (story : Story)
    (h : buildStory path el = Except.ok (Sum.inr story)) :
    story.pinyinAndTones ≠ [] ∧
    (1 < story.pinyinAndTones.length → story.isMovieSetStory = true) ∧
    (story.isMovieSetStory = true → story.pinyinAndTones.length ≠ 1) := by
  simp only [buildStory] at h
  split at h
  · simp at h
  · split at h
    · simp at h
    · split at h
      · simp at h
      · split at h
        · simp at h
        · split at h
          · simp at h
          · split at h
            · simp at h
            · split at h
              · simp at h
              · split at h
                · simp at h
                · split at h
                  · simp at h
                  · rename_i x8 snd8 hMulti x9 story5 heqChildren
                    simp only [parseChildren] at heqChildren
                    split at heqChildren
                    · simp at heqChildren
                    · split at heqChildren
                      · simp at heqChildren
                      · simp only [Sum.inr.injEq] at heqChildren
                        simp only [Except.ok.injEq, Sum.inr.injEq] at h
                        subst h
                        subst heqChildren
                        have hfacts := multiplePinyin_true _ _ _ hMulti
                        refine ⟨by simpa using splitOnChar_ne_nil ',' _, ?_, ?_⟩
                        · simpa using hfacts.1
                        · simpa using hfacts.2

/-- The story record `buildStory` assembles for `nodeMa` (Scenario A). -/
def storyMa : Story :=
  { headerText := "妈: ma1 | mother",
    hanzi := "妈",
    pinyinAndTones := ["ma1"],
    translationStr := some "mother",
    tags := none,
    translations := ["mother"],
    hanziBreakdown := some "female + horse",
    storyLines := ["A mother rides a horse."],
    notes := [] }

example : buildStory "ma/1" nodeMa = Except.ok (Sum.inr storyMa) := by rfl
example : contentPhase "ma/1" storyMa = Except.ok [] := by rfl

/-- C7.  Movie-set cardinality: every entry whose record was assembled and
which passes every rule has more than one pronunciation token exactly when
it carries the movie-set tag. -/
theorem c7_movie_set_cardinality (path : String) (el : Node) (story : Story)
    (h1 : buildStory path el = Except.ok (Sum.inr story))
    (_h2 : contentPhase path story = Except.ok []) :
    (1 < story.pinyinAndTones.length ↔ story.isMovieSetStory = true) := by
  obtain ⟨hne, hfwd, hbwd⟩ := buildStory_success path el story h1
  constructor
  · exact hfwd
  · intro hmv
    have hn1 : story.pinyinAndTones.length ≠ 1 := hbwd hmv
    have hn0 : story.pinyinAndTones.length ≠ 0 := fun hh =>
      hne (List.length_eq_zero.mp hh)
    omega

/-- Witness for `c7_movie_set_cardinality` at the concrete valid entry
`nodeMa`. -/
theorem c7_witness :
    (1 < storyMa.pinyinAndTones.length ↔ storyMa.isMovieSetStory = true) :=
  c7_movie_set_cardinality "ma/1" nodeMa storyMa (by rfl) (by rfl)

/-- C8.  Wheel exclusivity for fully validated entries: a wheel story has
no (falsy, i.e. absent or empty) breakdown, and a non-wheel entry away
from the root group has a non-empty breakdown. -/
theorem c8_wheel_exclusivity (path : String) (el : Node) (story : Story)
    (_h1 : buildStory path el = Except.ok (Sum.inr story))
    (h2 : contentPhase path story = Except.ok []) :
    (story.isWheelStory = true → truthy story.hanziBreakdown = false) ∧
    (story.isWheelStory = false → path ≠ "(no pronunciation)" →
      truthy story.hanziBreakdown = true) := by
  by_cases hc1 : (story.isWheelStory && truthy story.hanziBreakdown) = true
  · exfalso
    simp [contentPhase, wheelStoryValid, hc1] at h2
  · by_cases hc2 : (!story.isWheelStory && !(truthy story.hanziBreakdown) &&
        !(path == "(no pronunciation)")) = true
    · exfalso
      simp [contentPhase, wheelStoryValid, hanziBreakdownValid, hc1, hc2] at h2
    · constructor
      · intro hw
        cases ht : truthy story.hanziBreakdown with
        | false => rfl
        | true => exact absurd (by simp [hw, ht]) hc1
      · intro hw hp
        cases ht : truthy story.hanziBreakdown with
        | true => rfl
        | false => exact absurd (by simp [hw, ht, hp]) hc2

/-- Witness for `c8_wheel_exclusivity` at the concrete valid entry
`nodeMa`. -/
theorem c8_witness :
    (storyMa.isWheelStory = true → truthy storyMa.hanziBreakdown = false) ∧
    (storyMa.isWheelStory = false → "ma/1" ≠ "(no pronunciation)" →
      truthy storyMa.hanziBreakdown = true) :=
  c8_wheel_exclusivity "ma/1" nodeMa storyMa (by rfl) (by rfl)

/-- The character segment of an entry label (text before the first colon). -/
def hanziOf (el : Node) : String :=
  (splitOnChar ':' el.text).headD ""

/-- Every content rule emits at most one message. -/
lemma contentRules_msgs_short (r : ContentRule) (hr : r ∈ contentRules)
    (path : String) (story : Story) (b : Bool) (m : List String)
    (h : r path story = Except.ok (b, m)) : m.length ≤ 1 := by
  simp only [contentRules, List.mem_cons, List.not_mem_nil, or_false] at hr
  rcases hr with h1 | h1 | h1 | h1 | h1 | h1 | h1 | h1 | h1 | h1 | h1 | h1 <;>
    subst h1 <;>
    simp only [wheelStoryValid, hanziBreakdownValid, storyTypeValid, atLeastOneStoryLine,
      wheelStoryMentionsWheel, movieSetStoryHasAtLeastFourStoryLines,
      oldWestStoryMustBeginWithCorrectPattern, sciFiStoryMustBeginWithCorrectPattern,
      policeDramaStoryMustBeginWithCorrectPattern, pouringRainStoryMustHaveEligibleSyllable,
      storyWithPouringRainSyllableMustBePouringRainStory,
      pouringRainStoryMustMentionPouringRainInStoryText] at h <;>
    (repeat' split at h) <;>
    (try exact Except.noConfusion h) <;>
    (injection h with h2) <;>
    (injection h2 with h3 h4) <;>
    (rw [← h4]) <;> simp

/-- A first-failure run over rules that emit at most one message yields at
most one message. -/
lemma firstFailRun_short (path : String) (story : Story) :
    ∀ (rules : List ContentRule),
      (∀ r ∈ rules, ∀ b m, r path story = Except.ok (b, m) → m.length ≤ 1) →
      ∀ ms, firstFailRun rules path story = Except.ok ms → ms.length ≤ 1 := by
  intro rules
  induction rules with
  | nil =>
    intro _ ms h
    simp only [firstFailRun, Except.ok.injEq] at h
    subst h
    simp
  | cons r rs ih =>
    intro hall ms h
    simp only [firstFailRun] at h
    split at h
    · exact absurd h (by simp)
    · rename_i b m heq
      split at h
      · simp only [Except.ok.injEq] at h
        subst h
        exact hall r (List.mem_cons_self r rs) b m heq
      · exact ih (fun r2 hr2 => hall r2 (List.mem_cons_of_mem r hr2)) ms h

/-- The content phase of an entry emits at most one message. -/
lemma contentPhase_short (path : String) (story : Story) (ms : List String)
    (h : contentPhase path story = Except.ok ms) : ms.length ≤ 1 := by
  rw [contentPhase_eq_firstFail] at h
  exact firstFailRun_short path story contentRules
    (fun r hr b m hm => contentRules_msgs_short r hr path story b m hm) ms h

/-- A failing `buildStory` run either emits a single message, or failed in
`pinyinAndTonesValid` and every emitted message reports one malformed
pronunciation token. -/
lemma buildStory_inl (path : String) (el : Node) (ms : List String)
    (h : buildStory path el = Except.ok (Sum.inl ms)) :
    ms.length ≤ 1 ∨
      ∀ x ∈ ms, ∃ t, pinyinTokenOk t = false ∧ x = pinyinMsg path (hanziOf el) t := by
  simp only [buildStory] at h
  split at h
  · rename_i m1 heq1
    simp only [Except.ok.injEq, Sum.inl.injEq] at h
    subst h
    left
    simp only [validateHeaderFormat] at heq1
    split at heq1 <;> injection heq1 with hb hm
    · rw [← hm]; simp
    · exact absurd hb (by simp)
  · split at h
    · rename_i m1 heq1
      simp only [Except.ok.injEq, Sum.inl.injEq] at h
      subst h
      left
      simp only [hanziIsSingleCharacter] at heq1
      split at heq1 <;> injection heq1 with hb hm
      · rw [← hm]; simp
      · exact absurd hb (by simp)
    · split at h
      · exact absurd h (by simp)
      · split at h
        · rename_i m1 heq1
          simp only [Except.ok.injEq, Sum.inl.injEq] at h
          subst h
          right
          intro x hx
          simp only [pinyinAndTonesValid, Prod.mk.injEq] at heq1
          rw [← heq1.2] at hx
          simp only [List.mem_filterMap] at hx
          obtain ⟨t, ht, hft⟩ := hx
          split at hft
          · exact absurd hft (by simp)
          · rename_i hbad
            simp only [Option.some.injEq] at hft
            refine ⟨t, by simpa using hbad, ?_⟩
            rw [← hft]
            simp [hanziOf]
        · split at h
          · exact absurd h (by simp)
          · split at h
            · rename_i m1 heq1
              simp only [Except.ok.injEq, Sum.inl.injEq] at h
              subst h
              left
              simp only [pinyinCountMatchesTranslationCount] at heq1
              split at heq1 <;> injection heq1 with hb hm
              · rw [← hm]; simp
              · exact absurd hb (by simp)
            · split at h
              · rename_i m1 heq1
                simp only [Except.ok.injEq, Sum.inl.injEq] at h
                subst h
                left
                simp only [matchingPinyinSyllable] at heq1
                split at heq1 <;> injection heq1 with hb hm
                · rw [← hm]; simp
                · exact absurd hb (by simp)
              · split at h
                · rename_i m1 heq1
                  simp only [Except.ok.injEq, Sum.inl.injEq] at h
                  subst h
                  left
                  simp only [multiplePinyinSyllablesWithMovieSetTag] at heq1
                  (repeat' split at heq1) <;> injection heq1 with hb hm <;>
                    (try simp at hb) <;> (rw [← hm]; simp)
                · split at h
                  · rename_i m1 heq1
                    simp only [Except.ok.injEq, Sum.inl.injEq] at h
                    subst h
                    left
                    simp only [parseChildren] at heq1
                    (repeat' split at heq1) <;>
                      (try exact Sum.noConfusion heq1) <;>
                      injection heq1 with hm <;> (rw [← hm]; simp)
                  · exact absurd h (by simp)

/-- C3 amended.  The first failing rule halts the remaining rules for an
entry, and every rule emits a single diagnostic — except the
pronunciation-token rule, which emits one diagnostic per malformed token.
Hence an entry verdict carries at most one message unless every message of
the entry reports a malformed pronunciation token. -/
theorem c3_amended (path : String) (el : Node) (ms : List String)
    (h : auditHanziElement path el = Except.ok ms) :
    ms.length ≤ 1 ∨
      ∀ x ∈ ms, ∃ t, pinyinTokenOk t = false ∧ x = pinyinMsg path (hanziOf el) t := by
  unfold auditHanziElement at h
  split at h
  · exact absurd h (by simp)
  · rename_i msgs heqB
    simp only [Except.ok.injEq] at h
    subst h
    exact buildStory_inl path el msgs heqB
  · rename_i story heqB
    left
    exact contentPhase_short path story ms h

/-- Witness for `c3_amended` at the two-bad-token entry. -/
theorem c3_witness :
    ([pinyinMsg "ma/1" "的" "d3e", pinyinMsg "ma/1" "的" "x!y"] : List String).length ≤ 1 ∨
      ∀ x ∈ ([pinyinMsg "ma/1" "的" "d3e", pinyinMsg "ma/1" "的" "x!y"] : List String),
        ∃ t, pinyinTokenOk t = false ∧ x = pinyinMsg "ma/1" (hanziOf nodeTwoBad) t :=
  c3_amended "ma/1" nodeTwoBad
    [pinyinMsg "ma/1" "的" "d3e", pinyinMsg "ma/1" "的" "x!y"] (by rfl)

/-- If a sibling audit produced no entry records, the sibling list was
empty and no messages were emitted. -/
lemma auditEntries_ok_nil (path : String) (l : List Node) (ms : List String)
    (h : auditEntries path l = Except.ok (ms, [])) : ms = [] ∧ l = [] := by
  cases l with
  | nil =>
    simp only [auditEntries, Except.ok.injEq, Prod.mk.injEq] at h
    exact ⟨h.1.symm, rfl⟩
  | cons e rest =>
    simp only [auditEntries] at h
    split at h
    · exact Except.noConfusion h
    · split at h
      · exact Except.noConfusion h
      · simp at h

/-- Root whose child at index 2 carries a label that merely contains the
anchor text as a proper substring, with one valid sentinel entry under
it. -/
def rootMislabeled : Node :=
  Node.mk "字 HANZI"
    [Node.mk "a" [], Node.mk "b" [],
     Node.mk "Group 3 (no pronunciation) misc" [nodeDeSentinel]]

/-- C5.  The claim asserts the audit aborts — one top-level structural
error, no entries processed — exactly when the root child at index 2 does
not carry the label `"(no pronunciation)"`.  The code only tests substring
containment: this root's child 2 carries a different label, yet the audit
reports no top-level error, runs to completion, and processes the child's
entry. -/
theorem c5_counterexample :
    (rootMislabeled.children[2]?).map Node.text =
      some "Group 3 (no pronunciation) misc" ∧
    "Group 3 (no pronunciation) misc" ≠ "(no pronunciation)" ∧
    auditHanziStories rootMislabeled =
      Except.ok ([], [("(no pronunciation)", nodeDeSentinel)]) := by
  exact ⟨rfl, by decide, rfl⟩

/-- C5 amended.  The audit aborts — one top-level structural message,
zero entries processed — exactly when the label of the root child at
index 2 does not *contain* `"(no pronunciation)"` as a substring; and the
children at indices 0 and 1 are skipped unconditionally: the result never
depends on them (nor on the root label). -/
theorem c5_amended :
    (∀ (root fp : Node), root.children[2]? = some fp →
      (auditHanziStories root = Except.ok ([anchorMsg], []) ↔
        containsSubstr fp.text "(no pronunciation)" = false)) ∧
    (∀ (t1 t2 : String) (a1 b1 a2 b2 : Node) (rest : List Node),
      auditHanziStories (Node.mk t1 (a1 :: b1 :: rest)) =
        auditHanziStories (Node.mk t2 (a2 :: b2 :: rest))) := by
  constructor
  · intro root fp hfp
    constructor
    · intro h
      by_contra hc
      have hctrue : containsSubstr fp.text "(no pronunciation)" = true := by
        cases hcc : containsSubstr fp.text "(no pronunciation)" with
        | false => exact absurd hcc hc
        | true => rfl
      simp only [auditHanziStories, hfp, hctrue, Bool.not_true, if_false] at h
      split at h
      · rename_i hff
        exact absurd hff (by simp)
      · split at h
        · exact Except.noConfusion h
        · split at h
          · exact Except.noConfusion h
          · rename_i pair1 m1 e1 heq1
            split at h
            · exact Except.noConfusion h
            · rename_i pair2 m2 e2 heq2
              simp only [Except.ok.injEq, Prod.mk.injEq] at h
              obtain ⟨hm, he⟩ := h
              obtain ⟨he1, he2⟩ := List.append_eq_nil.mp he
              obtain ⟨_, hnil⟩ := auditEntries_ok_nil _ _ _ (by rw [heq1, he1])
              exact List.noConfusion hnil
    · intro hc
      simp [auditHanziStories, hfp, hc]
  · intro t1 t2 a1 b1 a2 b2 rest
    rfl

/-- Root whose anchor child label does not contain the anchor text. -/
def rootBadAnchor : Node :=
  Node.mk "字 HANZI" [Node.mk "a" [], Node.mk "b" [], Node.mk "wrong" []]

/-- Witness for `c5_amended`: a root whose third child is labelled
`"wrong"` makes the audit abort with only the anchor message. -/
theorem c5_witness :
    auditHanziStories rootBadAnchor = Except.ok ([anchorMsg], []) :=
  (c5_amended.1 rootBadAnchor (Node.mk "wrong" []) rfl).mpr (by decide)

end HanziAudit
